import Mathlib

/-!
Shallow embedding of the request/interceptor core of `gcloud-node`
(`src/lib/common/service.js` and `src/lib/common/service-object.js`),
together with theorems checking the natural-language specification
against the code.

JavaScript values that flow through callbacks and metadata caches are
modelled by `JsVal`; machine-level details (prototypes, `arguments`
objects) are modelled by explicit data where the behaviour depends on
them.  Interceptor objects carry a function on request options, so
interceptor lists are represented by indices into an environment
`IcptEnv` mapping each index to the interceptor object.
-/

namespace Gcloud

/- A JavaScript value, as far as the modelled code inspects one.  Objects
are association lists of fields (`JsFields`). -/
mutual
/-- A JavaScript value flowing through callbacks and metadata caches. -/
inductive JsVal where
  | vnull : JsVal
  | vbool : Bool → JsVal
  | vnum : Int → JsVal
  | vstr : String → JsVal
  | vobj : JsFields → JsVal
/-- The fields of a JavaScript object, as an association list. -/
inductive JsFields where
  | nil : JsFields
  | cons : String → JsVal → JsFields → JsFields
end

deriving instance DecidableEq for JsVal
deriving instance DecidableEq for JsFields

/-- An error value delivered to a callback; the code only inspects `err.code`. -/
structure Err where
  code : Option Int
  message : String
deriving DecidableEq

/-- `uriComponent.replace(/^\/*|\/*$/g, '')`: strip leading and trailing
runs of `/` (service.js line 82-83, service-object.js line 311-312). -/
def trimSlashes (s : String) : String :=
  ⟨((s.data.dropWhile (fun c => c = '/')).reverse.dropWhile (fun c => c = '/')).reverse⟩

/-- One left-to-right pass of `.replace(/\/:/g, ':')`: each non-overlapping
occurrence of `/:` becomes `:`, and replacements are not rescanned. -/
def collapseSlashColonChars : List Char → List Char
  | [] => []
  | '/' :: ':' :: rest => ':' :: collapseSlashColonChars rest
  | c :: rest => c :: collapseSlashColonChars rest

/-- `.replace(/\/:/g, ':')` on strings (service.js line 89). -/
def collapseSlashColon (s : String) : String :=
  ⟨collapseSlashColonChars s.data⟩

/-- Whitespace as stripped by JavaScript `String.prototype.trim` (the
characters that can actually occur in the modelled URI components). -/
def isJsSpace (c : Char) : Bool :=
  c = ' ' || c = '\t' || c = '\n' || c = '\r'

/-- JavaScript `s.trim()` (used for truthiness filtering of URI segments
in service-object.js line 309). -/
def jsTrim (s : String) : String :=
  ⟨((s.data.dropWhile isJsSpace).reverse.dropWhile isJsSpace).reverse⟩

/-- Request options handed through the pipeline.  `interceptors_` holds the
call-scoped interceptor list (indices into the interceptor environment);
`none` models the key being absent. -/
structure ReqOpts where
  uri : String
  method : Option String
  json : Option JsVal
  headers : List (String × String)
  interceptors_ : Option (List Nat)
deriving DecidableEq

/-- An interceptor object: it may or may not expose a `request` capability. -/
structure Interceptor where
  request : Option (ReqOpts → ReqOpts)

/-- Environment resolving interceptor indices to interceptor objects. -/
abbrev IcptEnv := Nat → Interceptor

/-- `arrify` on an optional list (absent key becomes `[]`). -/
def arrify (o : Option (List Nat)) : List Nat :=
  o.getD []

/-- The `while ((interceptor = combinedInterceptors.shift()) && interceptor.request)`
loop of service.js lines 96-100: each interceptor's output becomes the next
input, and the loop terminates as soon as the next interceptor lacks a
`request` capability. -/
def runInterceptors (env : IcptEnv) : List Nat → ReqOpts → ReqOpts
  | [], r => r
  | i :: rest, r =>
    match (env i).request with
    | none => r
    | some f => runInterceptors env rest (f r)

/-- The chain application as §4.1 of the spec words it: an interceptor
lacking a `request` capability is skipped and every later interceptor is
still applied.  Stated only for comparison against `runInterceptors`. -/
def runInterceptorsSkipSpec (env : IcptEnv) : List Nat → ReqOpts → ReqOpts
  | [], r => r
  | i :: rest, r =>
    match (env i).request with
    | none => runInterceptorsSkipSpec env rest r
    | some f => runInterceptorsSkipSpec env rest (f r)

/-- The slice of `config` that the `Service` constructor reads.
`projectIdRequired` is an optional JavaScript boolean (`none` = absent). -/
structure ServiceConfig where
  baseUrl : String
  projectIdRequired : Option Bool

/-- The slice of constructor `options` that the modelled code reads. -/
structure ServiceOptions where
  interceptors_ : Option (List Nat)
  projectId : String

/-- A `Service` instance (service.js lines 42-57), restricted to the fields
the request pipeline reads. -/
structure Service where
  baseUrl : String
  globalInterceptors : List Nat
  interceptors : List Nat
  projectId : String
  projectIdRequired : Bool

/-- The `Service` constructor (service.js lines 51-56):
`this.projectIdRequired = config.projectIdRequired !== false`. -/
def mkService (config : ServiceConfig) (options : ServiceOptions) : Service :=
  { baseUrl := config.baseUrl
    globalInterceptors := arrify options.interceptors_
    interceptors := []
    projectId := options.projectId
    projectIdRequired := config.projectIdRequired != some false }

/-- URI resolution of `Service.prototype.request` (service.js lines 69-89):
push `baseUrl`, optionally `projects`/`projectId`, then `reqOpts.uri`; trim
slashes from each component; join with `/`; collapse `/:` to `:`. -/
def Service.rewriteUri (svc : Service) (uri : String) : String :=
  let uriComponents :=
    [svc.baseUrl]
      ++ (if svc.projectIdRequired then ["projects", svc.projectId] else [])
      ++ [uri]
  collapseSlashColon (String.intercalate "/" (uriComponents.map trimSlashes))

/-- `combinedInterceptors` of service.js lines 92-94: global list, then the
service's own list, then `arrify(reqOpts.interceptors_)`. -/
def Service.combinedInterceptors (svc : Service) (r : ReqOpts) : List Nat :=
  svc.globalInterceptors ++ svc.interceptors ++ arrify r.interceptors_

/-- `Service.prototype.request` (service.js lines 68-105), returning the
request options handed to `makeAuthenticatedRequest`: rewrite the URI, run
the combined interceptor chain, then `delete reqOpts.interceptors_`. -/
def Service.request (svc : Service) (env : IcptEnv) (reqOpts : ReqOpts) : ReqOpts :=
  let r1 : ReqOpts := { reqOpts with uri := svc.rewriteUri reqOpts.uri }
  let r2 := runInterceptors env (svc.combinedInterceptors r1) r1
  { r2 with interceptors_ := none }

/-- The transport capability `makeAuthenticatedRequest`: it receives the
final request options and invokes the callback with `(err, resp)`. -/
abbrev Transport := ReqOpts → Option Err × JsVal

/-- Field lookup on a JavaScript object. -/
def jsGetField : JsFields → String → Option JsVal
  | JsFields.nil, _ => none
  | JsFields.cons k v rest, key => if k = key then some v else jsGetField rest key

/-- Field assignment on a JavaScript object: existing keys are updated in
place, new keys are appended. -/
def jsSetField : JsFields → String → JsVal → JsFields
  | JsFields.nil, key, v => JsFields.cons key v JsFields.nil
  | JsFields.cons k v0 rest, key, v =>
    if k = key then JsFields.cons k v rest else JsFields.cons k v0 (jsSetField rest key v)

mutual
/-- `extend(true, target, source)` on JavaScript values: when both sides are
plain objects the fields are merged recursively, otherwise the source value
wins. -/
def jsMergeDeep : JsVal → JsVal → JsVal
  | JsVal.vobj tf, JsVal.vobj sf => JsVal.vobj (jsMergeFields tf sf)
  | _, s => s

/-- Merge the source fields into the target fields, one source key at a
time in source order, recursing when both values for a key are objects. -/
def jsMergeFields : JsFields → JsFields → JsFields
  | tf, JsFields.nil => tf
  | tf, JsFields.cons k v rest =>
    let merged :=
      match v with
      | JsVal.vobj sf =>
        match jsGetField tf k with
        | some (JsVal.vobj tsub) => JsVal.vobj (jsMergeFields tsub sf)
        | _ => JsVal.vobj (jsMergeFields JsFields.nil sf)
      | _ => v
    jsMergeFields (jsSetField tf k merged) rest
end

/-- The shared method names on `ServiceObject.prototype`
(service-object.js lines 101-319), in definition order. -/
inductive MethodName where
  | create | delete | exists | get | getMetadata | setMetadata | request
deriving DecidableEq

/-- What an instance-level method lookup finds: the inherited prototype
method, a subclass override, or `undefined` after suppression. -/
inductive MethodSlot where
  | proto | overridden | undef
deriving DecidableEq

/-- `config.methods[name].reqOpts`: method-specific default request
options merged over the built-in defaults. -/
structure ReqOptsOverride where
  method : Option String
  uri : Option String
  json : Option JsVal
deriving DecidableEq

/-- A truthy entry of the `config.methods` allow-map. -/
structure MethodConfig where
  reqOpts : Option ReqOptsOverride
deriving DecidableEq

/-- The slice of the constructor `config` that the modelled code reads.
`methods = none` models the `config.methods` key being absent, in which
case no suppression happens and `this.methods` becomes `{}`. -/
structure SOConfig where
  baseUrl : String
  id : String
  methods : Option (MethodName → Option MethodConfig)

/-- A `ServiceObject` instance (service-object.js lines 59-90), restricted
to the fields the modelled operations read.  `oid` is the object identity
(JavaScript reference), `slots` the instance-level method table. -/
structure ServiceObject where
  oid : Nat
  metadata : JsVal
  baseUrl : String
  id : String
  methods : MethodName → Option MethodConfig
  interceptors : List Nat
  slots : MethodName → MethodSlot

/-- The `ServiceObject` constructor (service-object.js lines 59-90): when
`config.methods` is supplied, every prototype method that is not `request`,
was not already redefined on the instance (`pre name = proto`), and has no
truthy entry in the map, is set to `undefined`. -/
def mkServiceObject (oid : Nat) (config : SOConfig)
    (pre : MethodName → MethodSlot) : ServiceObject :=
  { oid := oid
    metadata := JsVal.vobj JsFields.nil
    baseUrl := config.baseUrl
    id := config.id
    methods := match config.methods with
      | some m => m
      | none => fun _ => none
    interceptors := []
    slots := match config.methods with
      | none => pre
      | some m => fun name =>
        if name ≠ MethodName.request ∧ pre name = MethodSlot.proto ∧ (m name).isNone
        then MethodSlot.undef
        else pre name }

/-- The base `ServiceObject.prototype.request` (service-object.js lines
301-319), returning the request options delegated to `parent.request`:
keep the URI components whose JavaScript `trim()` is truthy (non-empty),
strip slashes from each, join with `/`, and attach a copy of this
instance's interceptors as `reqOpts.interceptors_`. -/
def ServiceObject.request (so : ServiceObject) (reqOpts : ReqOpts) : ReqOpts :=
  let uriComponents := [so.baseUrl, so.id, reqOpts.uri]
  let uri := String.intercalate "/"
    ((uriComponents.filter (fun c => jsTrim c != "")).map trimSlashes)
  { reqOpts with uri := uri, interceptors_ := some so.interceptors }

/-- A `ServiceObject.request` delegated to a parent `Service`
(service-object.js line 318: `this.parent.request(reqOpts, callback)`). -/
def ServiceObject.requestVia (so : ServiceObject) (parent : Service)
    (env : IcptEnv) (reqOpts : ReqOpts) : ReqOpts :=
  parent.request env (so.request reqOpts)

/-- Shallow `extend(base, override)` for request options: keys present in
the override replace the base keys.  Method configs in the modelled code
only ever carry `method`, `uri` and `json` keys. -/
def extendReqOptsShallow (base : ReqOpts) (ov : Option ReqOptsOverride) : ReqOpts :=
  match ov with
  | none => base
  | some o =>
    { uri := match o.uri with
        | some u => u
        | none => base.uri
      method := match o.method with
        | some m => some m
        | none => base.method
      json := match o.json with
        | some j => some j
        | none => base.json
      headers := base.headers
      interceptors_ := base.interceptors_ }

/-- The `reqOpts` override registered for a method, if any
(`this.methods.name || {}` followed by `.reqOpts`). -/
def ServiceObject.methodReqOpts (so : ServiceObject) (name : MethodName) :
    Option ReqOptsOverride :=
  match so.methods name with
  | some cfg => cfg.reqOpts
  | none => none

/-- `extend({ uri: '' }, methodConfig.reqOpts)` of `getMetadata`
(service-object.js lines 236-240). -/
def ServiceObject.getMetadataReqOpts (so : ServiceObject) : ReqOpts :=
  extendReqOptsShallow
    { uri := "", method := none, json := none, headers := [], interceptors_ := none }
    (so.methodReqOpts MethodName.getMetadata)

/-- `extend(true, { method: 'PATCH', uri: '', json: metadata },
methodConfig.reqOpts)` of `setMetadata` (service-object.js lines 270-276):
a deep merge, so a `json` override is merged into the metadata object. -/
def ServiceObject.setMetadataReqOpts (so : ServiceObject) (metadata : JsVal) : ReqOpts :=
  match so.methodReqOpts MethodName.setMetadata with
  | none =>
    { uri := "", method := some "PATCH", json := some metadata
      headers := [], interceptors_ := none }
  | some o =>
    { uri := match o.uri with
        | some u => u
        | none => ""
      method := some (match o.method with
        | some m => m
        | none => "PATCH")
      json := some (match o.json with
        | some j => jsMergeDeep metadata j
        | none => metadata)
      headers := []
      interceptors_ := none }

/-- The observable outcome of a `getMetadata` call: the instance afterwards
and the three callback arguments `(err, metadata-or-null, resp)`.  `none`
in `metaArg` models the literal `null`. -/
structure MetadataCall where
  self : ServiceObject
  err : Option Err
  metaArg : Option JsVal
  resp : JsVal

/-- `ServiceObject.prototype.getMetadata` (service-object.js lines 233-254):
issue the request through the base `request` and the parent; on error call
back `(err, null, resp)` leaving the cache alone; on success set
`self.metadata = resp` and call back `(null, self.metadata, resp)`. -/
def ServiceObject.getMetadata (so : ServiceObject) (parent : Service)
    (env : IcptEnv) (transport : Transport) : MetadataCall :=
  let t := transport (parent.request env (so.request so.getMetadataReqOpts))
  match t.1 with
  | some e => { self := so, err := some e, metaArg := none, resp := t.2 }
  | none =>
    { self := { so with metadata := t.2 }, err := none, metaArg := some t.2, resp := t.2 }

/-- The observable outcome of a `setMetadata` call: the instance afterwards
and the two callback arguments `(err, resp)`. -/
structure SetMetadataCall where
  self : ServiceObject
  err : Option Err
  resp : JsVal

/-- `ServiceObject.prototype.setMetadata` (service-object.js lines 265-290):
on error call back `(err, resp)` leaving the cache alone; on success set
`self.metadata = resp` and call back `(null, resp)`. -/
def ServiceObject.setMetadata (so : ServiceObject) (parent : Service)
    (env : IcptEnv) (transport : Transport) (metadata : JsVal) : SetMetadataCall :=
  let t := transport (parent.request env (so.request (so.setMetadataReqOpts metadata)))
  match t.1 with
  | some e => { self := so, err := some e, resp := t.2 }
  | none => { self := { so with metadata := t.2 }, err := none, resp := t.2 }

/-- The `config` argument of `get` after the `delete config.autoCreate`
of service-object.js line 202: the truthiness of `config.autoCreate` and
the remaining fields. -/
structure GetConfig where
  autoCreate : Bool
  rest : JsFields

/-- The second callback argument of `get`: the literal `null` or the
instance itself (`self`). -/
inductive InstanceArg where
  | jsNull | selfRef
deriving DecidableEq

/-- How a `get` call concludes: either the user callback runs with three
arguments, or control transfers to `self.create` (service-object.js lines
206-214) carrying the remaining config when it is non-empty. -/
inductive GetOutcome where
  | callback : Option Err → InstanceArg → Option JsVal → GetOutcome
  | createInvoked : Option JsFields → GetOutcome
deriving DecidableEq

/-- `ServiceObject.prototype.get` (service-object.js lines 191-223): fetch
metadata; on a 404 with auto-creation requested and a `create` capability
present, invoke `create`; on any other error call back
`(err, null, metadata)` where `metadata` is the second argument `get`
received from `getMetadata` (which is `null` on error); on success call
back `(null, self, metadata)`. -/
def ServiceObject.get (so : ServiceObject) (parent : Service) (env : IcptEnv)
    (transport : Transport) (config : GetConfig) : ServiceObject × GetOutcome :=
  let autoCreate := config.autoCreate && !(so.slots MethodName.create == MethodSlot.undef)
  let m := so.getMetadata parent env transport
  match m.err with
  | some e =>
    if e.code == some 404 && autoCreate then
      (m.self, GetOutcome.createInvoked
        (match config.rest with
         | JsFields.nil => none
         | r => some r))
    else
      (m.self, GetOutcome.callback (some e) InstanceArg.jsNull m.metaArg)
  | none => (m.self, GetOutcome.callback none InstanceArg.selfRef m.metaArg)

/-- The newly created instance that `createMethod` hands to its callback:
an object reference plus its metadata. -/
structure CreatedInstance where
  oid : Nat
  metadata : JsVal
deriving DecidableEq

/-- How `createMethod` invokes its callback: `(err, instance, ...extra)`. -/
structure CreateOutcome where
  err : Option Err
  inst : CreatedInstance
  extra : List JsVal
deriving DecidableEq

/-- The observable outcome of a `create` call: the instance afterwards and
the callback arguments, the second of which is an object reference. -/
structure CreateResult where
  self : ServiceObject
  cbErr : Option Err
  cbInstanceOid : Nat
  cbExtra : List JsVal

/-- The `is.object(options)` gate of service-object.js lines 109-111: only
a plain object is pushed onto the `createMethod` argument list. -/
def objectArg (options : Option JsVal) : Option JsVal :=
  match options with
  | some (JsVal.vobj f) => some (JsVal.vobj f)
  | _ => none

/-- `ServiceObject.prototype.create` (service-object.js lines 101-129):
delegate to `createMethod(this.id, options?, onCreate)`; `onCreate` copies
the argument list, and on success sets `self.metadata = instance.metadata`
and replaces the second argument with `self` before applying the user
callback. -/
def ServiceObject.create (so : ServiceObject)
    (createMethod : String → Option JsVal → CreateOutcome)
    (options : Option JsVal) : CreateResult :=
  let outcome := createMethod so.id (objectArg options)
  match outcome.err with
  | some e =>
    { self := so, cbErr := some e
      cbInstanceOid := outcome.inst.oid, cbExtra := outcome.extra }
  | none =>
    { self := { so with metadata := outcome.inst.metadata }, cbErr := none
      cbInstanceOid := so.oid, cbExtra := outcome.extra }

/-- One page handed to the stream router's page callback:
`callback(null, results, nextQuery?)`. -/
structure ResultPage (α : Type) (γ : Type) where
  results : List α
  nextQuery : Option γ

/-- Modelled from the spec: the stream mode of the Stream Router
(`runAsStream` of §4.5; the router source is not under `src/`, only its
tests are).  On each round the router invokes the per-page fetch function
once, emits the page's items one at a time while the running counter of
emitted items has not reached `maxResults` (`maxResults < 0` meaning
unbounded), stops mid-page once the counter reaches `maxResults` with no
further fetch regardless of `nextQuery`, and otherwise follows a truthy
`nextQuery`.  `fuel` bounds the number of rounds so the model is total;
the result is the list of emitted items and the number of fetch calls. -/
def streamLoop {α γ : Type} (fetch : γ → ResultPage α γ) (maxResults : Int) :
    γ → Nat → Nat → List α × Nat
  | _, _, 0 => ([], 0)
  | q, emitted, Nat.succ fuel =>
    let page := fetch q
    let avail := page.results.length
    let takeN := if maxResults < 0 then avail
      else min avail (maxResults - (emitted : Int)).toNat
    let out := page.results.take takeN
    let reached := decide (0 ≤ maxResults) && decide (maxResults ≤ ((emitted + takeN : Nat) : Int))
    if reached then (out, 1)
    else
      match page.nextQuery with
      | none => (out, 1)
      | some q2 =>
        let rest := streamLoop fetch maxResults q2 (emitted + takeN) fuel
        (out ++ rest.1, rest.2 + 1)

/-- Modelled from the spec: `runAsStream` started on the original query
with the emitted-items counter at zero. -/
def runAsStream {α γ : Type} (fetch : γ → ResultPage α γ) (maxResults : Int)
    (q : γ) (fuel : Nat) : List α × Nat :=
  streamLoop fetch maxResults q 0 fuel

/-! Concrete fixtures used by counterexamples and witnesses. -/

/-- An interceptor whose `request` hook overwrites the `h` header. -/
def icptSet (v : String) : Interceptor :=
  ⟨some (fun r => { r with headers := [("h", v)] })⟩

/-- An interceptor object with no `request` capability. -/
def icptNoRequest : Interceptor :=
  ⟨none⟩

/-- A request-options value with every field at its plainest. -/
def rPlain : ReqOpts :=
  { uri := "", method := none, json := none, headers := [], interceptors_ := none }

/-- Environment for the C1 scenario: interceptor 0 lacks `request`,
interceptor 1 sets the `h` header. -/
def envC1 : IcptEnv := fun n =>
  if n = 0 then icptNoRequest else icptSet "v"

/-- A service whose global interceptor list is `[0, 1]`. -/
def svcC1 : Service :=
  { baseUrl := "", globalInterceptors := [0, 1], interceptors := []
    projectId := "", projectIdRequired := false }

/-- Environment for the C3 scenario: two global interceptors, one service
interceptor, one object interceptor and one call-scoped interceptor, each
overwriting the `h` header with its own tag. -/
def envC3 : IcptEnv := fun n =>
  if n = 0 then icptSet "g1"
  else if n = 1 then icptSet "g2"
  else if n = 2 then icptSet "s"
  else if n = 3 then icptSet "o"
  else icptSet "c"

/-- Service for the C3 scenario: global list `[0, 1]`, own list `[2]`. -/
def svcC3 : Service :=
  { baseUrl := "", globalInterceptors := [0, 1], interceptors := [2]
    projectId := "", projectIdRequired := false }

/-- Service object for the C3 scenario: own interceptor list `[3]`. -/
def soC3 : ServiceObject :=
  { oid := 0, metadata := JsVal.vnull, baseUrl := "", id := "thing"
    methods := fun _ => none, interceptors := [3], slots := fun _ => MethodSlot.proto }

/-- A request carrying the call-scoped interceptor list `[4]`. -/
def rC3 : ReqOpts :=
  { uri := "", method := none, json := none, headers := [], interceptors_ := some [4] }

/-- A transport error with a non-404 code. -/
def e500 : Err :=
  ⟨some 500, "server error"⟩

/-- A transport that always fails with `e500` and the raw response `"raw"`. -/
def transportErr : Transport := fun _ =>
  (some e500, JsVal.vstr "raw")

/-- A service with no interceptors and no project scoping. -/
def svcPlain : Service :=
  { baseUrl := "", globalInterceptors := [], interceptors := []
    projectId := "", projectIdRequired := false }

/-- An interceptor environment that resolves nothing useful. -/
def envPlain : IcptEnv := fun _ =>
  icptNoRequest

/-- A freshly constructed service object with no `methods` map supplied. -/
def soPlain : ServiceObject :=
  mkServiceObject 0 ⟨"", "thing", none⟩ (fun _ => MethodSlot.proto)

/-- A `get` config with `autoCreate` falsy and nothing else. -/
def cfgNoAuto : GetConfig :=
  ⟨false, JsFields.nil⟩

/-- The allow-map `{ getMetadata: true }` of the spec's suppression example. -/
def mExC7 : MethodName → Option MethodConfig := fun n =>
  match n with
  | MethodName.getMetadata => some ⟨none⟩
  | _ => none

/-- An instance state in which no method has been redefined by a subclass. -/
def preProto : MethodName → MethodSlot := fun _ =>
  MethodSlot.proto

/-- The newly created instance delivered by the C8 `createMethod`. -/
def createdC8 : CreatedInstance :=
  ⟨7, JsVal.vstr "m"⟩

/-- A `createMethod` that always succeeds with `createdC8` and one extra
callback argument. -/
def createMethodC8 : String → Option JsVal → CreateOutcome := fun _ _ =>
  ⟨none, createdC8, [JsVal.vstr "resp"]⟩

/-- A page source whose every page has three items and a next query. -/
def fetchC9 : Nat → ResultPage Nat Nat := fun _ =>
  ⟨[10, 20, 30], some 99⟩

/-- C4: the request options that `Service.request` hands to the
`makeAuthenticatedRequest` transport capability carry no call-scoped
interceptor field: `interceptors_` is consumed during the interceptor fold
and deleted before the request leaves the core (service.js line 102). -/
theorem c4_interceptors_stripped (svc : Service) (env : IcptEnv) (reqOpts : ReqOpts) :
    (svc.request env reqOpts).interceptors_ = none :=
  rfl

/-- C5: `Service.request` rewrites `reqOpts.uri` to the `/`-join of
`[baseUrl, "projects", projectId, uri]` when `projectIdRequired` is true
and of `[baseUrl, uri]` otherwise, trimming leading and trailing slashes
from each segment, then replacing every `/:` occurrence with `:`; and the
constructor makes `projectIdRequired` default to true unless configured as
exactly `false`.  The spec's concrete examples are included. -/
theorem c5_uri_rewrite (svc : Service) (u : String) :
    svc.rewriteUri u =
      collapseSlashColon (String.intercalate "/"
        ((if svc.projectIdRequired then [svc.baseUrl, "projects", svc.projectId, u]
          else [svc.baseUrl, u]).map trimSlashes)) ∧
    (∀ (config : ServiceConfig) (options : ServiceOptions),
      (mkService config options).projectIdRequired
        = (config.projectIdRequired != some false)) ∧
    (mkService ⟨"http://x/", none⟩ ⟨none, "p"⟩).rewriteUri "b"
      = "http://x/projects/p/b" ∧
    (mkService ⟨"http://x/", none⟩ ⟨none, "p"⟩).rewriteUri "items/:list"
      = "http://x/projects/p/items:list" := by
  refine ⟨?_, fun _ _ => rfl, rfl, rfl⟩
  cases h : svc.projectIdRequired <;> simp [Service.rewriteUri, h]

/-- C6: the base `ServiceObject.request` joins with `/` those segments of
`[baseUrl, id, reqOpts.uri]` that are non-blank, each trimmed of leading
and trailing slashes, attaches the instance's own interceptor list as the
call-scoped interceptors, and delegates the result to `parent.request`;
with `baseUrl = ''`, `id = 'abc'` and an empty `uri` the joined path is
exactly `abc`. -/
theorem c6_object_request (so : ServiceObject) (r : ReqOpts) :
    (so.request r).uri =
      String.intercalate "/"
        (([so.baseUrl, so.id, r.uri].filter (fun c => jsTrim c != "")).map trimSlashes) ∧
    (so.request r).interceptors_ = some so.interceptors ∧
    (so.request r).method = r.method ∧
    (so.request r).json = r.json ∧
    (so.request r).headers = r.headers ∧
    (∀ (parent : Service) (env : IcptEnv),
      so.requestVia parent env r = parent.request env (so.request r)) ∧
    (ServiceObject.request
        (mkServiceObject 0 ⟨"", "abc", none⟩ (fun _ => MethodSlot.proto)) rPlain).uri
      = "abc" :=
  ⟨rfl, rfl, rfl, rfl, rfl, fun _ _ => rfl, rfl⟩

/-- C1 counterexample: in the chain `[0, 1]` interceptor 0 lacks a
`request` capability while interceptor 1 has one that sets the `h` header.
The claim predicts interceptor 0 is skipped and interceptor 1 still
applied (as `runInterceptorsSkipSpec`, the spec-worded fold, does); but
`Service.request`'s while loop stops at interceptor 0, so the header is
never set. -/
theorem c1_skip_counterexample :
    (svcC1.request envC1 rPlain).headers = [] ∧
    (runInterceptorsSkipSpec envC1 [0, 1] rPlain).headers = [("h", "v")] ∧
    (envC1 1).request.isSome = true ∧
    ([] : List (String × String)) ≠ [("h", "v")] :=
  ⟨rfl, rfl, rfl, by decide⟩

/-- C1 (amended): `Service.request` applies the combined chain as a
left-to-right fold over the longest prefix of interceptors that expose a
`request` capability; at the first interceptor lacking one the loop stops
and no later interceptor is applied. -/
theorem c1_fold_stops_at_missing_request (env : IcptEnv) (l : List Nat)
    (r : ReqOpts) (svc : Service) :
    runInterceptors env l r
      = (l.takeWhile (fun i => ((env i).request).isSome)).foldl
          (fun acc i =>
            match (env i).request with
            | some f => f acc
            | none => acc) r ∧
    svc.request env r
      = { runInterceptors env
            (svc.combinedInterceptors { r with uri := svc.rewriteUri r.uri })
            { r with uri := svc.rewriteUri r.uri } with
          interceptors_ := none } := by
  refine ⟨?_, rfl⟩
  induction l generalizing r with
  | nil => rfl
  | cons i rest ih =>
    cases h : (env i).request with
    | none => simp [runInterceptors, List.takeWhile, h]
    | some f => simp [runInterceptors, List.takeWhile, h, ih]

/-- C3 counterexample: service `svcC3` has global interceptors `[0, 1]` and
service interceptors `[2]`; object `soC3` has object interceptors `[3]`;
the caller attached call-scoped interceptors `[4]` to the request.  The
claim predicts the chain `G ++ S ++ O ++ C = [0, 1, 2, 3, 4]`, whose fold
leaves the header at `c`; but `ServiceObject.request` overwrites
`reqOpts.interceptors_` with the object's own list, so the chain actually
run is `[0, 1, 2, 3]` and the header ends at `o`. -/
theorem c3_chain_counterexample :
    (svcC3.request envC3 (soC3.request rC3)).headers = [("h", "o")] ∧
    (runInterceptors envC3
        (svcC3.globalInterceptors ++ svcC3.interceptors ++ soC3.interceptors
          ++ arrify rC3.interceptors_)
        (soC3.request rC3)).headers = [("h", "c")] ∧
    ([("h", "o")] : List (String × String)) ≠ [("h", "c")] :=
  ⟨rfl, rfl, by decide⟩

/-- C3 (amended): the combined chain built by `Service.request` is
`G ++ S ++ (arrify reqOpts.interceptors_)`; for a request delegated from a
`ServiceObject` the object's own list is attached as the call-scoped list,
replacing any caller-supplied one, so the chain is `G ++ S ++ O`, in
registration order; interceptors run left-to-right so a later interceptor
overwrites an earlier one's header (the `[g1, g2, s, o]` scenario ends at
`o`); an empty combined chain raises no error and leaves the request
unchanged. -/
theorem c3_combined_chain (svc : Service) (so : ServiceObject) (env : IcptEnv)
    (r : ReqOpts) :
    svc.combinedInterceptors (so.request r)
      = svc.globalInterceptors ++ svc.interceptors ++ so.interceptors ∧
    svc.combinedInterceptors r
      = svc.globalInterceptors ++ svc.interceptors ++ arrify r.interceptors_ ∧
    (so.request r).interceptors_ = some so.interceptors ∧
    runInterceptors env [] r = r ∧
    (svcC3.request envC3 (soC3.request rC3)).headers = [("h", "o")] ∧
    svcPlain.request envPlain rPlain = { rPlain with uri := "/" } :=
  ⟨rfl, rfl, rfl, rfl, rfl, rfl⟩

/-- C7: when a `methods` map is supplied, every shared method name without
a truthy entry is set to `undefined` on the instance, except `request`
(always retained) and methods a subclass already redefined (left
untouched); methods present in the map keep their slot; with no `methods`
map nothing is suppressed. -/
theorem c7_method_suppression (oid : Nat) (baseUrl id : String)
    (m : MethodName → Option MethodConfig) (pre : MethodName → MethodSlot)
    (name : MethodName) :
    ((mkServiceObject oid ⟨baseUrl, id, some m⟩ pre).slots MethodName.request
        = pre MethodName.request) ∧
    (pre name = MethodSlot.overridden →
      (mkServiceObject oid ⟨baseUrl, id, some m⟩ pre).slots name = pre name) ∧
    ((m name).isSome = true →
      (mkServiceObject oid ⟨baseUrl, id, some m⟩ pre).slots name = pre name) ∧
    (name ≠ MethodName.request → pre name = MethodSlot.proto → m name = none →
      (mkServiceObject oid ⟨baseUrl, id, some m⟩ pre).slots name = MethodSlot.undef) ∧
    ((mkServiceObject oid ⟨baseUrl, id, none⟩ pre).slots name = pre name) := by
  refine ⟨by simp [mkServiceObject], ?_, ?_, ?_, rfl⟩
  · intro h
    simp [mkServiceObject, h]
  · intro h
    cases hm : m name with
    | none => rw [hm] at h; simp at h
    | some c => simp [mkServiceObject, hm]
  · intro h1 h2 h3
    simp [mkServiceObject, h1, h2, h3]

/-- C7 witness: constructing with `methods = { getMetadata: true }` leaves
`delete` and `setMetadata` undefined while `getMetadata` and `request`
keep their prototype slots. -/
theorem c7_method_suppression_witness :
    (mkServiceObject 0 ⟨"", "thing", some mExC7⟩ preProto).slots MethodName.delete
      = MethodSlot.undef ∧
    (mkServiceObject 0 ⟨"", "thing", some mExC7⟩ preProto).slots MethodName.setMetadata
      = MethodSlot.undef ∧
    (mkServiceObject 0 ⟨"", "thing", some mExC7⟩ preProto).slots MethodName.getMetadata
      = preProto MethodName.getMetadata ∧
    (mkServiceObject 0 ⟨"", "thing", some mExC7⟩ preProto).slots MethodName.request
      = preProto MethodName.request := by
  refine ⟨?_, ?_, ?_, ?_⟩
  · exact (c7_method_suppression 0 "" "thing" mExC7 preProto MethodName.delete).2.2.2.1
      (by decide) rfl rfl
  · exact (c7_method_suppression 0 "" "thing" mExC7 preProto MethodName.setMetadata).2.2.2.1
      (by decide) rfl rfl
  · exact (c7_method_suppression 0 "" "thing" mExC7 preProto MethodName.getMetadata).2.2.1 rfl
  · exact (c7_method_suppression 0 "" "thing" mExC7 preProto MethodName.request).1

/-- C8: when `createMethod` succeeds, the wrapped callback hands back the
original instance (same object reference, not the newly created one), with
its metadata updated to the created instance's metadata, and passes every
other callback argument through unchanged. -/
theorem c8_create_identity (so : ServiceObject)
    (createMethod : String → Option JsVal → CreateOutcome) (options : Option JsVal)
    (h : (createMethod so.id (objectArg options)).err = none) :
    (so.create createMethod options).self
      = { so with metadata := (createMethod so.id (objectArg options)).inst.metadata } ∧
    (so.create createMethod options).cbInstanceOid = so.oid ∧
    (so.create createMethod options).cbErr = none ∧
    (so.create createMethod options).cbExtra
      = (createMethod so.id (objectArg options)).extra ∧
    ((createMethod so.id (objectArg options)).inst.oid ≠ so.oid →
      (so.create createMethod options).cbInstanceOid
        ≠ (createMethod so.id (objectArg options)).inst.oid) := by
  simp only [ServiceObject.create, h]
  exact ⟨trivial, trivial, trivial, trivial, fun hne => Ne.symm hne⟩

/-- C8 witness: a concrete successful creation hands back the original
instance (oid 0, not the created oid 7) with metadata `"m"`, and forwards
the extra response argument unchanged. -/
theorem c8_create_identity_witness :
    (soPlain.create createMethodC8 none).self
      = { soPlain with metadata := JsVal.vstr "m" } ∧
    (soPlain.create createMethodC8 none).cbInstanceOid = 0 ∧
    (soPlain.create createMethodC8 none).cbErr = none ∧
    (soPlain.create createMethodC8 none).cbExtra = [JsVal.vstr "resp"] ∧
    (soPlain.create createMethodC8 none).cbInstanceOid ≠ 7 := by
  obtain ⟨h1, h2, h3, h4, h5⟩ := c8_create_identity soPlain createMethodC8 none rfl
  exact ⟨h1, h2, h3, h4, h5 (by decide)⟩

/-- C9: once the running count of emitted items reaches `maxResults ≥ 0`,
the stream router stops emitting even in the middle of a page and issues
no further page fetch, regardless of the page's `nextQuery`: whenever the
cap falls inside the current page, the round emits exactly the items up to
the cap and performs exactly one fetch. -/
theorem c9_max_results_cap {α γ : Type} (fetch : γ → ResultPage α γ) (q : γ)
    (fuel : Nat) (m : Int) (emitted : Nat)
    (h0 : 0 ≤ m) (hcap : (emitted : Int) ≤ m)
    (hlen : m.toNat ≤ emitted + (fetch q).results.length) :
    streamLoop fetch m q emitted (fuel + 1)
      = ((fetch q).results.take (m.toNat - emitted), 1) ∧
    runAsStream fetch m q (fuel + 1) = streamLoop fetch m q 0 (fuel + 1) := by
  refine ⟨?_, rfl⟩
  have hm : ¬ m < 0 := not_lt.mpr h0
  have h1 : (m - (emitted : Int)).toNat = m.toNat - emitted := by omega
  have h2 : min (fetch q).results.length (m.toNat - emitted) = m.toNat - emitted := by
    omega
  have h3 : (decide (0 ≤ m) && decide (m ≤ ((emitted + (m.toNat - emitted) : Nat) : Int)))
      = true := by
    simp only [Bool.and_eq_true, decide_eq_true_eq]
    omega
  simp only [streamLoop, if_neg hm, h1, h2, h3, if_pos]

/-- C9 witness: with `maxResults = 1` and a first page of three items
carrying a `nextQuery`, exactly one item is emitted and the fetch function
is called exactly once. -/
theorem c9_max_results_cap_witness :
    runAsStream fetchC9 1 0 5 = ([10], 1) := by
  have h := c9_max_results_cap fetchC9 0 4 1 0 (by decide) (by decide) (by decide)
  exact h.2.trans h.1

/-- C2 counterexample: with a transport failing with code 500 and raw
response `"raw"`, `get` invokes the callback as `(err, null, null)` — the
third argument is `null`, not the raw response of the failed metadata
request, because `get`'s handler forwards getMetadata's (null) `metadata`
argument rather than its `resp` argument. -/
theorem c2_third_argument_counterexample :
    (soPlain.get svcPlain envPlain transportErr cfgNoAuto).2
      = GetOutcome.callback (some e500) InstanceArg.jsNull none ∧
    (transportErr (svcPlain.request envPlain
        (soPlain.request soPlain.getMetadataReqOpts))).2 = JsVal.vstr "raw" ∧
    GetOutcome.callback (some e500) InstanceArg.jsNull none
      ≠ GetOutcome.callback (some e500) InstanceArg.jsNull (some (JsVal.vstr "raw")) :=
  ⟨rfl, rfl, by decide⟩

/-- C2 (amended): when the metadata request fails with an error not handled
by auto-creation (code not 404, or autoCreate not requested, or no create
capability), `get` invokes the callback as `(error, null, null)`: the third
argument is the null metadata value forwarded from `getMetadata`'s error
invocation, not the raw response. -/
theorem c2_error_callback_passes_null (so : ServiceObject) (parent : Service)
    (env : IcptEnv) (transport : Transport) (config : GetConfig) (e : Err)
    (h : (transport (parent.request env (so.request so.getMetadataReqOpts))).1 = some e)
    (hno : e.code ≠ some 404 ∨ config.autoCreate = false
      ∨ so.slots MethodName.create = MethodSlot.undef) :
    so.get parent env transport config
      = (so, GetOutcome.callback (some e) InstanceArg.jsNull none) := by
  rcases hno with hc | hc | hc <;>
    simp [ServiceObject.get, ServiceObject.getMetadata, h, hc]

/-- C2 witness: the amended statement applied at the concrete 500-error
transport. -/
theorem c2_error_callback_passes_null_witness :
    soPlain.get svcPlain envPlain transportErr cfgNoAuto
      = (soPlain, GetOutcome.callback (some e500) InstanceArg.jsNull none) :=
  c2_error_callback_passes_null soPlain svcPlain envPlain transportErr cfgNoAuto e500
    rfl (Or.inl (by decide))

/-- C10: on an error from the transport, `getMetadata` and `setMetadata`
leave the instance's cached `metadata` unchanged; on success the cache is
assigned the response body, which is also the value handed to the
callback. -/
theorem c10_metadata_cache (so : ServiceObject) (parent : Service) (env : IcptEnv)
    (transport : Transport) (newMeta : JsVal) :
    ((so.getMetadata parent env transport).self.metadata
        = (match (transport (parent.request env (so.request so.getMetadataReqOpts))).1 with
           | some _ => so.metadata
           | none => (transport (parent.request env (so.request so.getMetadataReqOpts))).2) ∧
      (so.getMetadata parent env transport).err
        = (transport (parent.request env (so.request so.getMetadataReqOpts))).1 ∧
      (so.getMetadata parent env transport).metaArg
        = (match (transport (parent.request env (so.request so.getMetadataReqOpts))).1 with
           | some _ => none
           | none => some (transport (parent.request env (so.request so.getMetadataReqOpts))).2) ∧
      (so.getMetadata parent env transport).resp
        = (transport (parent.request env (so.request so.getMetadataReqOpts))).2) ∧
    ((so.setMetadata parent env transport newMeta).self.metadata
        = (match
            (transport (parent.request env (so.request (so.setMetadataReqOpts newMeta)))).1 with
           | some _ => so.metadata
           | none =>
             (transport (parent.request env (so.request (so.setMetadataReqOpts newMeta)))).2) ∧
      (so.setMetadata parent env transport newMeta).err
        = (transport (parent.request env (so.request (so.setMetadataReqOpts newMeta)))).1 ∧
      (so.setMetadata parent env transport newMeta).resp
        = (transport (parent.request env (so.request (so.setMetadataReqOpts newMeta)))).2) := by
  constructor
  · rcases ht : transport (Service.request parent env (so.request so.getMetadataReqOpts))
      with ⟨e, resp⟩
    cases e <;> simp [ServiceObject.getMetadata, ht]
  · rcases ht : transport
        (Service.request parent env (so.request (so.setMetadataReqOpts newMeta)))
      with ⟨e, resp⟩
    cases e <;> simp [ServiceObject.setMetadata, ht]

end Gcloud
